import Mathlib

/-!
Verification of the group-parameter module of the zkgroup repository
(`src/rust/src/api/groups/group_params.rs`).

Bytes are modelled as natural numbers and byte strings as `List Nat`.
The module's own logic (key derivation pipeline, blob wire format,
length checks, error mapping) is translated directly from the source.
External collaborators that are not part of the source under scrutiny —
the `poksho` labeled byte expander `ShoSha256::shohash`, the
`aes_gcm_siv` AEAD cipher, and the repository's `crypto::uid_encryption`,
`crypto::profile_key_encryption` and `crypto::signature` key pairs — are
modelled from the specification's stated contracts; each such model is
marked `Modelled from the spec:` in its doc comment.
-/

set_option autoImplicit false

/-- Byte-wise xor of two byte strings, truncated to the shorter one
(used by the modelled ciphers as their masking operation). -/
def xorBytes (xs ks : List Nat) : List Nat :=
  List.zipWith Nat.xor xs ks

/-- Modelled from the spec: the deterministic labeled byte expander
(`poksho`'s `ShoSha256::shohash`, an external collaborator). It expands a
(domain label, input seed) pair into a pseudorandom stream and returns
exactly the first `outLen` bytes of that one continuous expansion, so the
output for length `L` is a prefix of the output for any larger length. -/
def shohash (label : String) (input : List Nat) (outLen : Nat) : List Nat :=
  let seed : Nat :=
    label.data.foldl (fun a c => (a * 65599 + c.toNat) % 1073741789) 5381
  let mixed : Nat :=
    input.foldl (fun a b => (a * 131 + b + 1) % 1073741789) seed
  (List.range outLen).map (fun i => (mixed * (i + 1) + i * i) % 256)

/-- Modelled from the spec: keystream of the AES-256-GCM-SIV cipher
(external `aes_gcm_siv` crate), a pseudorandom stream determined by the
key and the 96-bit nonce. -/
def aeadKeyStream (key nonce : List Nat) (n : Nat) : List Nat :=
  shohash "Model_AesGcmSiv_KeyStream" (key ++ nonce) n

/-- Modelled from the spec: the 128-bit (16-byte) authentication tag the
AEAD computes over the key, nonce and plaintext. -/
def aeadTag (key nonce plaintext : List Nat) : List Nat :=
  shohash "Model_AesGcmSiv_Tag" (key ++ nonce ++ plaintext) 16

/-- Modelled from the spec: AES-256-GCM-SIV encryption with no associated
data. The output is the masked plaintext followed by the 16-byte tag, so
its length is the plaintext length plus 16. -/
def aes256GcmSivEncrypt (key nonce plaintext : List Nat) :
    Except Unit (List Nat) :=
  .ok (xorBytes plaintext (aeadKeyStream key nonce plaintext.length) ++
    aeadTag key nonce plaintext)

/-- Modelled from the spec: AES-256-GCM-SIV decryption. Fails closed when
the input cannot contain a tag or when the recomputed tag mismatches;
otherwise returns the unmasked plaintext. -/
def aes256GcmSivDecrypt (key nonce ciphertext : List Nat) :
    Except Unit (List Nat) :=
  if ciphertext.length < 16 then .error ()
  else
    let body := ciphertext.take (ciphertext.length - 16)
    let tag := ciphertext.drop (ciphertext.length - 16)
    let pt := xorBytes body (aeadKeyStream key nonce body.length)
    if aeadTag key nonce pt = tag then .ok pt else .error ()

/-- The error kind of the module (`ZkGroupError` in `common::errors`):
the spec names the two kinds this module produces. -/
inductive ZkGroupError where
  | BadArgs
  | DecryptionFailure
deriving DecidableEq, Repr

/-- `GROUP_MASTER_KEY_LEN` from `common::constants`: the master key is
32 raw bytes. -/
def GROUP_MASTER_KEY_LEN : Nat := 32

/-- `GROUP_IDENTIFIER_LEN` from `common::constants`: the group identifier
is a fixed-length 32-byte array. -/
def GROUP_IDENTIFIER_LEN : Nat := 32

/-- Modelled from the spec: `crypto::uid_struct::UidStruct`, the internal
wrapper around raw identifier bytes. -/
structure UidStruct where
  bytes : List Nat
deriving DecidableEq, Repr

/-- `UidStruct::new`: wraps identifier bytes. -/
def UidStruct.new (uid_bytes : List Nat) : UidStruct :=
  ⟨uid_bytes⟩

/-- `UidStruct::to_bytes`: the raw identifier bytes back out. -/
def UidStruct.to_bytes (u : UidStruct) : List Nat :=
  u.bytes

/-- Modelled from the spec: the identifier-encryption key pair
(`crypto::uid_encryption::KeyPair`, an external collaborator), carrying
secret material derived deterministically from the master key bytes. -/
structure UidEncKeyPair where
  seed : List Nat
deriving DecidableEq, Repr

/-- Modelled from the spec: the public half of the identifier-encryption
key pair. -/
structure UidEncPublicKey where
  bytes : List Nat
deriving DecidableEq, Repr

/-- Modelled from the spec: an opaque identifier ciphertext produced by
the external deterministic encryption; it records which key pair produced
it and the masked payload, and carries no other state. -/
structure UidCiphertextInner where
  key_tag : List Nat
  payload : List Nat
deriving DecidableEq, Repr

/-- Modelled from the spec: `uid_encryption::KeyPair::derive_from` — a
deterministic, domain-separated derivation from the master key bytes
(the collaborator's internal label is private to it; a model label stands
in for it). -/
def UidEncKeyPair.derive_from (master_key_bytes : List Nat) : UidEncKeyPair :=
  ⟨shohash "Model_UidEnc_KeyDerive" master_key_bytes 32⟩

/-- Modelled from the spec: the public key of the identifier-encryption
key pair, a one-way function of its secret seed. -/
def UidEncKeyPair.get_public_key (kp : UidEncKeyPair) : UidEncPublicKey :=
  ⟨shohash "Model_UidEnc_PublicKey" kp.seed 32⟩

/-- Modelled from the spec: deterministic identifier encryption — no
randomness is consumed, so equal inputs under the same key pair give
identical ciphertexts. -/
def UidEncKeyPair.encrypt (kp : UidEncKeyPair) (uid : UidStruct) :
    UidCiphertextInner :=
  ⟨shohash "Model_UidEnc_KeyTag" kp.seed 32,
   xorBytes uid.bytes (shohash "Model_UidEnc_Mask" kp.seed uid.bytes.length)⟩

/-- Modelled from the spec: identifier decryption, the inverse of
`UidEncKeyPair.encrypt`; fails with `DecryptionFailure` when the
ciphertext was not produced under this key pair. -/
def UidEncKeyPair.decrypt (kp : UidEncKeyPair) (c : UidCiphertextInner) :
    Except ZkGroupError UidStruct :=
  if c.key_tag = shohash "Model_UidEnc_KeyTag" kp.seed 32 then
    .ok ⟨xorBytes c.payload
      (shohash "Model_UidEnc_Mask" kp.seed c.payload.length)⟩
  else .error ZkGroupError.DecryptionFailure

/-- Modelled from the spec: `crypto::profile_key_struct::ProfileKeyStruct`,
the internal wrapper around raw profile-key bytes. -/
structure ProfileKeyStruct where
  bytes : List Nat
deriving DecidableEq, Repr

/-- `ProfileKeyStruct::new`: wraps profile-key bytes. -/
def ProfileKeyStruct.new (profile_key_bytes : List Nat) : ProfileKeyStruct :=
  ⟨profile_key_bytes⟩

/-- Modelled from the spec: the profile-key-encryption key pair
(`crypto::profile_key_encryption::KeyPair`, an external collaborator). -/
structure ProfileKeyEncKeyPair where
  seed : List Nat
deriving DecidableEq, Repr

/-- Modelled from the spec: the public half of the profile-key-encryption
key pair. -/
structure ProfileKeyEncPublicKey where
  bytes : List Nat
deriving DecidableEq, Repr

/-- Modelled from the spec: an opaque profile-key ciphertext produced by
the external deterministic encryption. -/
structure ProfileKeyCiphertextInner where
  key_tag : List Nat
  payload : List Nat
deriving DecidableEq, Repr

/-- Modelled from the spec: `profile_key_encryption::KeyPair::derive_from`,
the analogous deterministic derivation from the master key bytes. -/
def ProfileKeyEncKeyPair.derive_from (master_key_bytes : List Nat) :
    ProfileKeyEncKeyPair :=
  ⟨shohash "Model_ProfileKeyEnc_KeyDerive" master_key_bytes 32⟩

/-- Modelled from the spec: the public key of the profile-key-encryption
key pair. -/
def ProfileKeyEncKeyPair.get_public_key (kp : ProfileKeyEncKeyPair) :
    ProfileKeyEncPublicKey :=
  ⟨shohash "Model_ProfileKeyEnc_PublicKey" kp.seed 32⟩

/-- Modelled from the spec: deterministic profile-key encryption. -/
def ProfileKeyEncKeyPair.encrypt (kp : ProfileKeyEncKeyPair)
    (pk : ProfileKeyStruct) : ProfileKeyCiphertextInner :=
  ⟨shohash "Model_ProfileKeyEnc_KeyTag" kp.seed 32,
   xorBytes pk.bytes
     (shohash "Model_ProfileKeyEnc_Mask" kp.seed pk.bytes.length)⟩

/-- Modelled from the spec: profile-key decryption, inverse of the
encryption under the same key pair. -/
def ProfileKeyEncKeyPair.decrypt (kp : ProfileKeyEncKeyPair)
    (c : ProfileKeyCiphertextInner) : Except ZkGroupError ProfileKeyStruct :=
  if c.key_tag = shohash "Model_ProfileKeyEnc_KeyTag" kp.seed 32 then
    .ok ⟨xorBytes c.payload
      (shohash "Model_ProfileKeyEnc_Mask" kp.seed c.payload.length)⟩
  else .error ZkGroupError.DecryptionFailure

/-- Modelled from the spec: the signature key pair
(`crypto::signature::KeyPair`, an external collaborator). -/
structure SigKeyPair where
  seed : List Nat
deriving DecidableEq, Repr

/-- Modelled from the spec: the public half of the signature key pair. -/
structure SigPublicKey where
  bytes : List Nat
deriving DecidableEq, Repr

/-- Modelled from the spec: `signature::KeyPair::derive_from`, a
deterministic, label-domain-separated derivation from the master key
bytes. -/
def SigKeyPair.derive_from (master_key_bytes : List Nat) (label : String) :
    SigKeyPair :=
  ⟨shohash label master_key_bytes 32⟩

/-- Modelled from the spec: the public key of the signature key pair. -/
def SigKeyPair.get_public_key (kp : SigKeyPair) : SigPublicKey :=
  ⟨shohash "Model_Sig_PublicKey" kp.seed 32⟩

/-- Modelled from the spec: randomized signing delegated to the external
signature primitive. -/
def SigKeyPair.sign (kp : SigKeyPair) (message randomness : List Nat) :
    Except ZkGroupError (List Nat) :=
  .ok (shohash "Model_Sig_Sign" (kp.seed ++ message ++ randomness) 64)

/-- `GroupMasterKey`: 32 raw bytes, the sole secret seeding every derived
key of the group. -/
structure GroupMasterKey where
  bytes : List Nat
deriving DecidableEq, Repr

/-- `GroupMasterKey::new`. -/
def GroupMasterKey.new (bytes : List Nat) : GroupMasterKey :=
  ⟨bytes⟩

/-- `GroupSecretParams`: the secret parameter bundle of
`group_params.rs` — three derived key pairs, the master key and the
group identifier. -/
structure GroupSecretParams where
  uid_enc_key_pair : UidEncKeyPair
  profile_key_enc_key_pair : ProfileKeyEncKeyPair
  sig_key_pair : SigKeyPair
  master_key : GroupMasterKey
  group_id : List Nat
deriving DecidableEq, Repr

/-- `GroupPublicParams`: the public projection — the three public keys
and the group identifier, and nothing else. -/
structure GroupPublicParams where
  uid_enc_public_key : UidEncPublicKey
  profile_key_enc_public_key : ProfileKeyEncPublicKey
  sig_public_key : SigPublicKey
  group_id : List Nat
deriving DecidableEq, Repr

/-- `api::groups::UuidCiphertext`: the public wrapper around an
identifier ciphertext. -/
structure UuidCiphertext where
  ciphertext : UidCiphertextInner
deriving DecidableEq, Repr

/-- `api::groups::ProfileKeyCiphertext`: the public wrapper around a
profile-key ciphertext. -/
structure ProfileKeyCiphertext where
  ciphertext : ProfileKeyCiphertextInner
deriving DecidableEq, Repr

/-- `api::profiles::ProfileKey`: raw profile-key bytes. -/
structure ProfileKey where
  bytes : List Nat
deriving DecidableEq, Repr

/-- `GroupSecretParams::derive_from_master_key` (source lines 61-86):
derives the three key pairs and the group identifier from the master key
and stores the master key itself unchanged. -/
def GroupSecretParams.derive_from_master_key (master_key : GroupMasterKey) :
    GroupSecretParams :=
  let uid_enc_key_pair := UidEncKeyPair.derive_from master_key.bytes
  let profile_key_enc_key_pair :=
    ProfileKeyEncKeyPair.derive_from master_key.bytes
  let sig_key_pair :=
    SigKeyPair.derive_from master_key.bytes
      "Signal_ZKGroup_Sig_Client_KeyDerive"
  let group_id :=
    (shohash "Signal_ZKGroup_GroupId" master_key.bytes
      GROUP_IDENTIFIER_LEN).take GROUP_IDENTIFIER_LEN
  { uid_enc_key_pair := uid_enc_key_pair
    profile_key_enc_key_pair := profile_key_enc_key_pair
    sig_key_pair := sig_key_pair
    master_key := master_key
    group_id := group_id }

/-- `GroupSecretParams::generate` (source lines 49-59): derives the
master key from the caller randomness via the labeled byte expander,
truncated to the master-key length, then delegates to
`derive_from_master_key`. -/
def GroupSecretParams.generate (randomness : List Nat) : GroupSecretParams :=
  let master_key : GroupMasterKey :=
    ⟨(shohash "Signal_ZKGroup_Master_Random" randomness
      GROUP_MASTER_KEY_LEN).take GROUP_MASTER_KEY_LEN⟩
  GroupSecretParams.derive_from_master_key master_key

/-- `GroupSecretParams::get_master_key`. -/
def GroupSecretParams.get_master_key (self : GroupSecretParams) :
    GroupMasterKey :=
  self.master_key

/-- `GroupSecretParams::get_group_identifier`. -/
def GroupSecretParams.get_group_identifier (self : GroupSecretParams) :
    List Nat :=
  self.group_id

/-- `GroupSecretParams::get_public_params` (source lines 96-103): the
pure projection to the public bundle. -/
def GroupSecretParams.get_public_params (self : GroupSecretParams) :
    GroupPublicParams :=
  { uid_enc_public_key := self.uid_enc_key_pair.get_public_key
    profile_key_enc_public_key := self.profile_key_enc_key_pair.get_public_key
    sig_public_key := self.sig_key_pair.get_public_key
    group_id := self.group_id }

/-- `GroupSecretParams::sign`: delegates to the signature key pair. -/
def GroupSecretParams.sign (self : GroupSecretParams)
    (randomness message : List Nat) : Except ZkGroupError (List Nat) :=
  self.sig_key_pair.sign message randomness

/-- `GroupSecretParams::encrypt_uid_struct`. -/
def GroupSecretParams.encrypt_uid_struct (self : GroupSecretParams)
    (uid : UidStruct) : UuidCiphertext :=
  ⟨self.uid_enc_key_pair.encrypt uid⟩

/-- `GroupSecretParams::encrypt_uuid` (source lines 113-116): wraps the
identifier bytes and delegates to the deterministic encryption; takes no
randomness. -/
def GroupSecretParams.encrypt_uuid (self : GroupSecretParams)
    (uid_bytes : List Nat) : UuidCiphertext :=
  self.encrypt_uid_struct (UidStruct.new uid_bytes)

/-- `GroupSecretParams::decrypt_uuid` (source lines 126-132). -/
def GroupSecretParams.decrypt_uuid (self : GroupSecretParams)
    (ciphertext : UuidCiphertext) : Except ZkGroupError (List Nat) :=
  match self.uid_enc_key_pair.decrypt ciphertext.ciphertext with
  | .ok uid => .ok uid.to_bytes
  | .error e => .error e

/-- `GroupSecretParams::encrypt_profile_key_bytes` (source lines
142-150): the randomness parameter is accepted but unused (`_randomness`
in the source); the encryption itself is deterministic. -/
def GroupSecretParams.encrypt_profile_key_bytes (self : GroupSecretParams)
    (_randomness profile_key_bytes : List Nat) : ProfileKeyCiphertext :=
  let profile_key := ProfileKeyStruct.new profile_key_bytes
  ⟨self.profile_key_enc_key_pair.encrypt profile_key⟩

/-- `GroupSecretParams::encrypt_profile_key` (source lines 134-140). -/
def GroupSecretParams.encrypt_profile_key (self : GroupSecretParams)
    (randomness : List Nat) (profile_key : ProfileKey) : ProfileKeyCiphertext :=
  self.encrypt_profile_key_bytes randomness profile_key.bytes

/-- `GroupSecretParams::decrypt_profile_key` (source lines 152-162). -/
def GroupSecretParams.decrypt_profile_key (self : GroupSecretParams)
    (ciphertext : ProfileKeyCiphertext) : Except ZkGroupError ProfileKey :=
  match self.profile_key_enc_key_pair.decrypt ciphertext.ciphertext with
  | .ok profile_key_struct => .ok ⟨profile_key_struct.bytes⟩
  | .error e => .error e

/-- `GroupSecretParams::encrypt_blob_aesgcmsiv` generalized over the
cipher's encryption function: the source (lines 199-212) builds the AEAD
from the key and maps any cipher failure to `BadArgs`. -/
def GroupSecretParams.encrypt_blob_aesgcmsiv_with
    (enc : List Nat → List Nat → List Nat → Except Unit (List Nat))
    (_self : GroupSecretParams) (key nonce plaintext : List Nat) :
    Except ZkGroupError (List Nat) :=
  match enc key nonce plaintext with
  | .ok ciphertext_vec => .ok ciphertext_vec
  | .error _ => .error ZkGroupError.BadArgs

/-- `GroupSecretParams::encrypt_blob_aesgcmsiv` (source lines 199-212),
instantiated with the modelled AES-256-GCM-SIV. -/
def GroupSecretParams.encrypt_blob_aesgcmsiv (self : GroupSecretParams)
    (key nonce plaintext : List Nat) : Except ZkGroupError (List Nat) :=
  self.encrypt_blob_aesgcmsiv_with aes256GcmSivEncrypt key nonce plaintext

/-- `GroupSecretParams::decrypt_blob_aesgcmsiv` generalized over the
cipher's decryption function: the source (lines 214-231) rejects inputs
shorter than the 16-byte tag before invoking the cipher and maps any
cipher failure to `DecryptionFailure`. -/
def GroupSecretParams.decrypt_blob_aesgcmsiv_with
    (dec : List Nat → List Nat → List Nat → Except Unit (List Nat))
    (_self : GroupSecretParams) (key nonce ciphertext : List Nat) :
    Except ZkGroupError (List Nat) :=
  if ciphertext.length < 16 then .error ZkGroupError.DecryptionFailure
  else
    match dec key nonce ciphertext with
    | .ok plaintext_vec => .ok plaintext_vec
    | .error _ => .error ZkGroupError.DecryptionFailure

/-- `GroupSecretParams::decrypt_blob_aesgcmsiv` (source lines 214-231),
instantiated with the modelled AES-256-GCM-SIV. -/
def GroupSecretParams.decrypt_blob_aesgcmsiv (self : GroupSecretParams)
    (key nonce ciphertext : List Nat) : Except ZkGroupError (List Nat) :=
  self.decrypt_blob_aesgcmsiv_with aes256GcmSivDecrypt key nonce ciphertext

/-- `GroupSecretParams::encrypt_blob` generalized over the cipher: the
source (lines 164-182) derives the key from the master key and the nonce
from the randomness, encrypts, and appends the nonce to the tail. -/
def GroupSecretParams.encrypt_blob_with
    (enc : List Nat → List Nat → List Nat → Except Unit (List Nat))
    (self : GroupSecretParams) (randomness plaintext : List Nat) :
    Except ZkGroupError (List Nat) :=
  let key_vec :=
    shohash "Signal_ZKGroup_BlobEnc_KeyDerive" self.master_key.bytes 32
  let nonce_vec := shohash "Signal_ZKGroup_BlobEnc_Nonce" randomness 12
  match self.encrypt_blob_aesgcmsiv_with enc key_vec nonce_vec plaintext with
  | .ok ciphertext_vec => .ok (ciphertext_vec ++ nonce_vec)
  | .error e => .error e

/-- `GroupSecretParams::encrypt_blob` (source lines 164-182). -/
def GroupSecretParams.encrypt_blob (self : GroupSecretParams)
    (randomness plaintext : List Nat) : Except ZkGroupError (List Nat) :=
  self.encrypt_blob_with aes256GcmSivEncrypt randomness plaintext

/-- `GroupSecretParams::decrypt_blob` generalized over the cipher: the
source (lines 184-197) re-derives the key from the master key, rejects
inputs shorter than the 12-byte nonce, splits the nonce from the tail and
delegates. -/
def GroupSecretParams.decrypt_blob_with
    (dec : List Nat → List Nat → List Nat → Except Unit (List Nat))
    (self : GroupSecretParams) (ciphertext : List Nat) :
    Except ZkGroupError (List Nat) :=
  let key_vec :=
    shohash "Signal_ZKGroup_BlobEnc_KeyDerive" self.master_key.bytes 32
  if ciphertext.length < 12 then .error ZkGroupError.DecryptionFailure
  else
    let nonce := ciphertext.drop (ciphertext.length - 12)
    let body := ciphertext.take (ciphertext.length - 12)
    self.decrypt_blob_aesgcmsiv_with dec key_vec nonce body

/-- `GroupSecretParams::decrypt_blob` (source lines 184-197). -/
def GroupSecretParams.decrypt_blob (self : GroupSecretParams)
    (ciphertext : List Nat) : Except ZkGroupError (List Nat) :=
  self.decrypt_blob_with aes256GcmSivDecrypt ciphertext

/-- `GroupPublicParams::get_group_identifier`. -/
def GroupPublicParams.get_group_identifier (self : GroupPublicParams) :
    List Nat :=
  self.group_id

theorem shohash_length (label : String) (input : List Nat) (n : Nat) :
    (shohash label input n).length = n := by
  simp [shohash]

theorem xorBytes_nil (ks : List Nat) : xorBytes [] ks = [] := rfl

theorem xorBytes_cons (x k : Nat) (xs ks : List Nat) :
    xorBytes (x :: xs) (k :: ks) = (x ^^^ k) :: xorBytes xs ks := rfl

theorem xorBytes_length (xs ks : List Nat) :
    (xorBytes xs ks).length = min xs.length ks.length := by
  simp [xorBytes]

theorem xorBytes_cancel (xs : List Nat) :
    ∀ ks : List Nat, xs.length ≤ ks.length →
      xorBytes (xorBytes xs ks) ks = xs := by
  induction xs with
  | nil => intro ks _; simp [xorBytes]
  | cons x xs ih =>
    intro ks h
    cases ks with
    | nil => simp at h
    | cons k ks =>
      rw [xorBytes_cons, xorBytes_cons, Nat.xor_cancel_right,
        ih ks (by simpa using h)]

theorem aeadKeyStream_length (key nonce : List Nat) (n : Nat) :
    (aeadKeyStream key nonce n).length = n := by
  rw [aeadKeyStream, shohash_length]

theorem aeadTag_length (key nonce pt : List Nat) :
    (aeadTag key nonce pt).length = 16 := by
  rw [aeadTag, shohash_length]

theorem aes256GcmSivEncrypt_eq (key nonce pt : List Nat) :
    aes256GcmSivEncrypt key nonce pt =
      .ok (xorBytes pt (aeadKeyStream key nonce pt.length) ++
        aeadTag key nonce pt) := rfl

theorem aes256GcmSivEncrypt_length (key nonce pt : List Nat) :
    (xorBytes pt (aeadKeyStream key nonce pt.length) ++
      aeadTag key nonce pt).length = pt.length + 16 := by
  rw [List.length_append, xorBytes_length, aeadKeyStream_length,
    min_self, aeadTag_length]

theorem aes256GcmSivDecrypt_encrypt (key nonce pt : List Nat) :
    aes256GcmSivDecrypt key nonce
      (xorBytes pt (aeadKeyStream key nonce pt.length) ++
        aeadTag key nonce pt) = .ok pt := by
  have hbody : (xorBytes pt (aeadKeyStream key nonce pt.length)).length
      = pt.length := by
    rw [xorBytes_length, aeadKeyStream_length, min_self]
  have hlen := aes256GcmSivEncrypt_length key nonce pt
  have hnot : ¬ (xorBytes pt (aeadKeyStream key nonce pt.length) ++
      aeadTag key nonce pt).length < 16 := by omega
  have hn : (xorBytes pt (aeadKeyStream key nonce pt.length)).length
      = (xorBytes pt (aeadKeyStream key nonce pt.length) ++
        aeadTag key nonce pt).length - 16 := by omega
  have hcancel : xorBytes (xorBytes pt (aeadKeyStream key nonce pt.length))
      (aeadKeyStream key nonce
        (xorBytes pt (aeadKeyStream key nonce pt.length)).length) = pt := by
    rw [hbody]
    exact xorBytes_cancel pt _
      (le_of_eq (aeadKeyStream_length key nonce pt.length).symm)
  simp only [aes256GcmSivDecrypt, if_neg hnot,
    List.take_left' hn, List.drop_left' hn, hcancel, if_true]

theorem uid_enc_decrypt_encrypt (kp : UidEncKeyPair) (u : UidStruct) :
    kp.decrypt (kp.encrypt u) = .ok u := by
  have hlen : (xorBytes u.bytes
      (shohash "Model_UidEnc_Mask" kp.seed u.bytes.length)).length
      = u.bytes.length := by
    rw [xorBytes_length, shohash_length, min_self]
  simp only [UidEncKeyPair.decrypt, UidEncKeyPair.encrypt, if_pos rfl, hlen,
    xorBytes_cancel u.bytes _
      (le_of_eq (shohash_length "Model_UidEnc_Mask" kp.seed
        u.bytes.length).symm), if_true]

theorem profile_key_enc_decrypt_encrypt (kp : ProfileKeyEncKeyPair)
    (s : ProfileKeyStruct) : kp.decrypt (kp.encrypt s) = .ok s := by
  have hlen : (xorBytes s.bytes
      (shohash "Model_ProfileKeyEnc_Mask" kp.seed s.bytes.length)).length
      = s.bytes.length := by
    rw [xorBytes_length, shohash_length, min_self]
  simp only [ProfileKeyEncKeyPair.decrypt, ProfileKeyEncKeyPair.encrypt,
    if_pos rfl, hlen,
    xorBytes_cancel s.bytes _
      (le_of_eq (shohash_length "Model_ProfileKeyEnc_Mask" kp.seed
        s.bytes.length).symm), if_true]

theorem decrypt_blob_with_split
    (dec : List Nat → List Nat → List Nat → Except Unit (List Nat))
    (p : GroupSecretParams) (body nonce : List Nat)
    (h12 : nonce.length = 12) :
    GroupSecretParams.decrypt_blob_with dec p (body ++ nonce) =
      GroupSecretParams.decrypt_blob_aesgcmsiv_with dec p
        (shohash "Signal_ZKGroup_BlobEnc_KeyDerive" p.master_key.bytes 32)
        nonce body := by
  have hlen : (body ++ nonce).length = body.length + 12 := by
    rw [List.length_append, h12]
  have hnot : ¬ (body ++ nonce).length < 12 := by omega
  have hb : body.length = (body ++ nonce).length - 12 := by omega
  simp only [GroupSecretParams.decrypt_blob_with, if_neg hnot,
    List.drop_left' hb, List.take_left' hb]

/-- The blob-encryption key exactly as the spec derives it: the byte
expander with label "Signal_ZKGroup_BlobEnc_KeyDerive" applied to the
master-key bytes with output length 32 — a function of the master key
only, taking neither the randomness nor the plaintext. -/
def blobEncKeySpec (master_key_bytes : List Nat) : List Nat :=
  shohash "Signal_ZKGroup_BlobEnc_KeyDerive" master_key_bytes 32

/-- The blob-encryption nonce exactly as the spec derives it: the byte
expander with label "Signal_ZKGroup_BlobEnc_Nonce" applied to the
randomness with output length 12. -/
def blobEncNonceSpec (randomness : List Nat) : List Nat :=
  shohash "Signal_ZKGroup_BlobEnc_Nonce" randomness 12

theorem decrypt_blob_with_ok_or_decryption_failure
    (dec : List Nat → List Nat → List Nat → Except Unit (List Nat))
    (p : GroupSecretParams) (c : List Nat) :
    (∃ v, GroupSecretParams.decrypt_blob_with dec p c = .ok v) ∨
      GroupSecretParams.decrypt_blob_with dec p c =
        .error ZkGroupError.DecryptionFailure := by
  unfold GroupSecretParams.decrypt_blob_with
    GroupSecretParams.decrypt_blob_aesgcmsiv_with
  by_cases h12 : c.length < 12
  · right; simp only [if_pos h12]
  · simp only [if_neg h12]
    by_cases h16 : (c.take (c.length - 12)).length < 16
    · right; simp only [if_pos h16]
    · simp only [if_neg h16]
      cases hdec : dec
          (shohash "Signal_ZKGroup_BlobEnc_KeyDerive" p.master_key.bytes 32)
          (c.drop (c.length - 12)) (c.take (c.length - 12)) with
      | ok v => left; exact ⟨v, rfl⟩
      | error e => right; rfl

theorem encrypt_blob_with_ok_or_bad_args
    (enc : List Nat → List Nat → List Nat → Except Unit (List Nat))
    (p : GroupSecretParams) (r b : List Nat) :
    (∃ v, GroupSecretParams.encrypt_blob_with enc p r b = .ok v) ∨
      GroupSecretParams.encrypt_blob_with enc p r b =
        .error ZkGroupError.BadArgs := by
  simp only [GroupSecretParams.encrypt_blob_with,
    GroupSecretParams.encrypt_blob_aesgcmsiv_with]
  cases henc : enc
      (shohash "Signal_ZKGroup_BlobEnc_KeyDerive" p.master_key.bytes 32)
      (shohash "Signal_ZKGroup_BlobEnc_Nonce" r 12) b with
  | ok v => left; exact ⟨_, rfl⟩
  | error e => right; rfl

/-- A concrete parameter bundle used to instantiate theorems with
hypotheses at explicit inputs. -/
def sampleParams : GroupSecretParams :=
  GroupSecretParams.generate (List.range 32)

/-- Claim C1: for every byte string b (including the empty string) and
every randomness r, blob encryption under a GroupSecretParams succeeds,
and decrypting its output under the same params returns exactly b. -/
theorem blob_roundtrip (p : GroupSecretParams) (r b : List Nat) :
    ∃ c, p.encrypt_blob r b = Except.ok c ∧
      p.decrypt_blob c = Except.ok b := by
  refine ⟨(xorBytes b (aeadKeyStream
        (shohash "Signal_ZKGroup_BlobEnc_KeyDerive" p.master_key.bytes 32)
        (shohash "Signal_ZKGroup_BlobEnc_Nonce" r 12) b.length) ++
      aeadTag (shohash "Signal_ZKGroup_BlobEnc_KeyDerive" p.master_key.bytes 32)
        (shohash "Signal_ZKGroup_BlobEnc_Nonce" r 12) b) ++
      shohash "Signal_ZKGroup_BlobEnc_Nonce" r 12, rfl, ?_⟩
  have h16 : ¬ (xorBytes b (aeadKeyStream
      (shohash "Signal_ZKGroup_BlobEnc_KeyDerive" p.master_key.bytes 32)
      (shohash "Signal_ZKGroup_BlobEnc_Nonce" r 12) b.length) ++
      aeadTag (shohash "Signal_ZKGroup_BlobEnc_KeyDerive" p.master_key.bytes 32)
        (shohash "Signal_ZKGroup_BlobEnc_Nonce" r 12) b).length < 16 := by
    rw [aes256GcmSivEncrypt_length]; omega
  simp only [GroupSecretParams.decrypt_blob]
  rw [decrypt_blob_with_split aes256GcmSivDecrypt p _ _
    (shohash_length "Signal_ZKGroup_BlobEnc_Nonce" r 12)]
  simp only [GroupSecretParams.decrypt_blob_aesgcmsiv_with, if_neg h16,
    aes256GcmSivDecrypt_encrypt]

/-- Claim C2: the successful output of encrypt_blob is the AEAD
ciphertext-and-tag (plaintext length + 16 bytes) with the 12-byte nonce
appended at the tail, for a total length of plaintext length + 28. -/
theorem blob_wire_format (p : GroupSecretParams) (r b : List Nat) :
    ∃ aead_ct,
      p.encrypt_blob r b =
        Except.ok (aead_ct ++ shohash "Signal_ZKGroup_BlobEnc_Nonce" r 12) ∧
      aead_ct.length = b.length + 16 ∧
      (shohash "Signal_ZKGroup_BlobEnc_Nonce" r 12).length = 12 ∧
      (aead_ct ++ shohash "Signal_ZKGroup_BlobEnc_Nonce" r 12).length
        = b.length + 28 := by
  refine ⟨xorBytes b (aeadKeyStream
      (shohash "Signal_ZKGroup_BlobEnc_KeyDerive" p.master_key.bytes 32)
      (shohash "Signal_ZKGroup_BlobEnc_Nonce" r 12) b.length) ++
    aeadTag (shohash "Signal_ZKGroup_BlobEnc_KeyDerive" p.master_key.bytes 32)
      (shohash "Signal_ZKGroup_BlobEnc_Nonce" r 12) b, rfl,
    aes256GcmSivEncrypt_length _ _ b,
    shohash_length "Signal_ZKGroup_BlobEnc_Nonce" r 12, ?_⟩
  rw [List.length_append, aes256GcmSivEncrypt_length,
    shohash_length "Signal_ZKGroup_BlobEnc_Nonce" r 12]

/-- Claim C3: in encrypt_blob the 32-byte AES key is exactly the byte
expander's output for label "Signal_ZKGroup_BlobEnc_KeyDerive" on the
master-key bytes (a function of the master key only), the 12-byte nonce
is exactly the byte expander's output for label
"Signal_ZKGroup_BlobEnc_Nonce" on the randomness, and decrypt_blob
re-derives the same key from the master key. -/
theorem blob_key_nonce_derivation (p : GroupSecretParams) (r b c : List Nat) :
    p.encrypt_blob r b =
      (match p.encrypt_blob_aesgcmsiv (blobEncKeySpec p.master_key.bytes)
          (blobEncNonceSpec r) b with
        | .ok v => Except.ok (v ++ blobEncNonceSpec r)
        | .error e => Except.error e) ∧
    p.decrypt_blob c =
      (if c.length < 12 then Except.error ZkGroupError.DecryptionFailure
        else p.decrypt_blob_aesgcmsiv (blobEncKeySpec p.master_key.bytes)
          (c.drop (c.length - 12)) (c.take (c.length - 12))) :=
  ⟨rfl, rfl⟩

/-- Claim C4: every input shorter than 28 bytes (shorter than the
12-byte nonce, or whose remainder after removing the nonce is shorter
than the 16-byte tag) is rejected by decrypt_blob with
DecryptionFailure, without invoking the cipher: the result is the same
for an arbitrary cipher decryption function. -/
theorem decrypt_blob_short_input_rejected
    (dec : List Nat → List Nat → List Nat → Except Unit (List Nat))
    (p : GroupSecretParams) (c : List Nat) (h : c.length < 28) :
    GroupSecretParams.decrypt_blob_with dec p c =
        Except.error ZkGroupError.DecryptionFailure ∧
      p.decrypt_blob c =
        GroupSecretParams.decrypt_blob_with aes256GcmSivDecrypt p c := by
  refine ⟨?_, rfl⟩
  by_cases h12 : c.length < 12
  · simp only [GroupSecretParams.decrypt_blob_with, if_pos h12]
  · have h16 : (c.take (c.length - 12)).length < 16 :=
      calc (c.take (c.length - 12)).length
          = min (c.length - 12) c.length := List.length_take _ _
        _ ≤ c.length - 12 := min_le_left _ _
        _ < 16 := by omega
    simp only [GroupSecretParams.decrypt_blob_with, if_neg h12,
      GroupSecretParams.decrypt_blob_aesgcmsiv_with, if_pos h16]

/-- Claim C4 witness: the empty input is shorter than 28 bytes and
decrypt_blob rejects it with DecryptionFailure. -/
theorem decrypt_blob_short_input_rejected_witness :
    ([] : List Nat).length < 28 ∧
      GroupSecretParams.decrypt_blob_with aes256GcmSivDecrypt sampleParams []
        = Except.error ZkGroupError.DecryptionFailure :=
  ⟨by decide, (decrypt_blob_short_input_rejected aes256GcmSivDecrypt
    sampleParams [] (by decide)).1⟩

/-- Claim C5: decrypt_blob is total — for an arbitrary cipher it either
returns a plaintext or the uniform DecryptionFailure kind — and every
failure of encrypt_blob's cipher construction surfaces as BadArgs; the
concrete encrypt_blob and decrypt_blob are these wrappers instantiated
with the AES-256-GCM-SIV cipher. -/
theorem blob_error_kind_mapping
    (dec enc : List Nat → List Nat → List Nat → Except Unit (List Nat))
    (p : GroupSecretParams) (r b c : List Nat) :
    ((∃ v, GroupSecretParams.decrypt_blob_with dec p c = Except.ok v) ∨
      GroupSecretParams.decrypt_blob_with dec p c =
        Except.error ZkGroupError.DecryptionFailure) ∧
    ((∃ v, GroupSecretParams.encrypt_blob_with enc p r b = Except.ok v) ∨
      GroupSecretParams.encrypt_blob_with enc p r b =
        Except.error ZkGroupError.BadArgs) ∧
    p.decrypt_blob c =
      GroupSecretParams.decrypt_blob_with aes256GcmSivDecrypt p c ∧
    p.encrypt_blob r b =
      GroupSecretParams.encrypt_blob_with aes256GcmSivEncrypt p r b :=
  ⟨decrypt_blob_with_ok_or_decryption_failure dec p c,
   encrypt_blob_with_ok_or_bad_args enc p r b, rfl, rfl⟩

/-- Claim C6: generate derives the master key as the first 32 bytes of
the byte expander's output for label "Signal_ZKGroup_Master_Random" on
the randomness and delegates to derive_from_master_key, which derives
the signature key pair via deriveFrom with label
"Signal_ZKGroup_Sig_Client_KeyDerive" on the master-key bytes, the group
identifier as the truncated byte expander output for label
"Signal_ZKGroup_GroupId" on the master-key bytes, and the uid- and
profile-key-encryption key pairs via their external deriveFrom on the
master-key bytes. -/
theorem derivation_pipeline (r : List Nat) (m : GroupMasterKey) :
    GroupSecretParams.generate r =
      GroupSecretParams.derive_from_master_key
        ⟨(shohash "Signal_ZKGroup_Master_Random" r GROUP_MASTER_KEY_LEN).take
          GROUP_MASTER_KEY_LEN⟩ ∧
    (GroupSecretParams.derive_from_master_key m).uid_enc_key_pair =
      UidEncKeyPair.derive_from m.bytes ∧
    (GroupSecretParams.derive_from_master_key m).profile_key_enc_key_pair =
      ProfileKeyEncKeyPair.derive_from m.bytes ∧
    (GroupSecretParams.derive_from_master_key m).sig_key_pair =
      SigKeyPair.derive_from m.bytes "Signal_ZKGroup_Sig_Client_KeyDerive" ∧
    (GroupSecretParams.derive_from_master_key m).group_id =
      (shohash "Signal_ZKGroup_GroupId" m.bytes GROUP_IDENTIFIER_LEN).take
        GROUP_IDENTIFIER_LEN :=
  ⟨rfl, rfl, rfl, rfl, rfl⟩

/-- Claim C7: profile-key encryption ignores its randomness parameter —
any two randomness values give identical ciphertexts — and decryption
under the same GroupSecretParams returns the original profile key. -/
theorem profile_key_deterministic_roundtrip (p : GroupSecretParams)
    (r r' k : List Nat) :
    p.encrypt_profile_key r ⟨k⟩ = p.encrypt_profile_key r' ⟨k⟩ ∧
    p.decrypt_profile_key (p.encrypt_profile_key r ⟨k⟩) =
      Except.ok ⟨k⟩ := by
  refine ⟨rfl, ?_⟩
  simp only [GroupSecretParams.encrypt_profile_key,
    GroupSecretParams.encrypt_profile_key_bytes,
    GroupSecretParams.decrypt_profile_key,
    profile_key_enc_decrypt_encrypt, ProfileKeyStruct.new]

/-- Claim C8: identifier encryption consumes no randomness (its output
is determined by the uid-encryption key pair and the identifier alone),
and decrypt_uuid of encrypt_uuid under the same GroupSecretParams
returns the identifier bytes. -/
theorem uuid_roundtrip (p q : GroupSecretParams) (u : List Nat) :
    p.decrypt_uuid (p.encrypt_uuid u) = Except.ok u ∧
    (q.uid_enc_key_pair = p.uid_enc_key_pair →
      q.encrypt_uuid u = p.encrypt_uuid u) := by
  constructor
  · simp only [GroupSecretParams.encrypt_uuid,
      GroupSecretParams.encrypt_uid_struct, GroupSecretParams.decrypt_uuid,
      uid_enc_decrypt_encrypt, UidStruct.new, UidStruct.to_bytes]
  · intro h
    simp only [GroupSecretParams.encrypt_uuid,
      GroupSecretParams.encrypt_uid_struct, h]

/-- Claim C8 witness: a concrete identifier round-trips through
encrypt_uuid and decrypt_uuid, and the determinism implication holds at
the same bundle. -/
theorem uuid_roundtrip_witness :
    sampleParams.decrypt_uuid (sampleParams.encrypt_uuid [1, 2, 3])
        = Except.ok [1, 2, 3] ∧
      sampleParams.encrypt_uuid [1, 2, 3]
        = sampleParams.encrypt_uuid [1, 2, 3] :=
  ⟨(uuid_roundtrip sampleParams sampleParams [1, 2, 3]).1,
   (uuid_roundtrip sampleParams sampleParams [1, 2, 3]).2 rfl⟩

/-- Claim C9: get_public_params is a pure projection whose fields are
exactly the three public keys and the same group identifier, and a
GroupPublicParams consists of exactly those four fields — it has no
master-key or secret-key field. -/
theorem public_params_projection (p : GroupSecretParams)
    (q : GroupPublicParams) :
    p.get_public_params =
      { uid_enc_public_key := p.uid_enc_key_pair.get_public_key
        profile_key_enc_public_key :=
          p.profile_key_enc_key_pair.get_public_key
        sig_public_key := p.sig_key_pair.get_public_key
        group_id := p.group_id } ∧
    q = { uid_enc_public_key := q.uid_enc_public_key
          profile_key_enc_public_key := q.profile_key_enc_public_key
          sig_public_key := q.sig_public_key
          group_id := q.group_id } :=
  ⟨rfl, rfl⟩

/-- Claim C10: derive_from_master_key stores the master key unchanged —
get_master_key returns it bit-identically — so a bundle produced by
derive_from_master_key is reconstructed exactly from its own
get_master_key output. -/
theorem master_key_preserved (m : GroupMasterKey) :
    (GroupSecretParams.derive_from_master_key m).get_master_key = m ∧
    GroupSecretParams.derive_from_master_key
        ((GroupSecretParams.derive_from_master_key m).get_master_key) =
      GroupSecretParams.derive_from_master_key m :=
  ⟨rfl, rfl⟩
